import Mathlib

/-!
Verification of the expo-gdal-pdfium GeoPDF rendering core.

Shallow embedding of the decision logic in
`modules/expo-gdal-pdfium/android/.../ExpoGdalPdfiumModule.kt`:
the projection classifier, the metadata-recovery strategies
(byte-pattern scan and OGR vector extent), the dead geotransform-based
extractor, the render selector with its Android-PdfRenderer fallback,
and the uniform response envelope built by `createResponseMap`.

Conventions of the embedding:
* Kotlin `Double` values are modelled as `ℚ` (the corner arithmetic of the
  source is plain field arithmetic; decimal literals in scanned files are
  parsed exactly).
* All calls into the GDAL/OGR native library and the Android platform are
  oracles: their observable answers (dataset fields, layer extents,
  coordinate-transform behaviour, PNG write success) are inputs to the
  embedded functions.
* Kotlin `Map<String, Any>` response values are association lists of
  `String × JVal`; where the source stringifies a `Double` via `toString()`
  the payload is modelled by its numeric value (`JVal.num`), which is
  faithful because `Double.toString` is injective on doubles.
-/

namespace GdalPdfium

/-- The ten-field coordinate record of the Kotlin `GeoMetadata` data class. -/
structure GeoMetadata where
  topLeftLng : ℚ
  topLeftLat : ℚ
  topRightLng : ℚ
  topRightLat : ℚ
  bottomLeftLng : ℚ
  bottomLeftLat : ℚ
  bottomRightLng : ℚ
  bottomRightLat : ℚ
  centerLng : ℚ
  centerLat : ℚ
  deriving DecidableEq, Repr

/-- The all-zero default coordinates the source falls back to. -/
def zeroMetadata : GeoMetadata :=
  ⟨0, 0, 0, 0, 0, 0, 0, 0, 0, 0⟩

/-! ## Case-insensitive substring search (Kotlin `String.contains(_, ignoreCase = true)`) -/

/-- Lower-cased character list of a string, the form in which the
case-insensitive searches of the source compare text. -/
def lcList (s : String) : List Char :=
  s.toList.map Char.toLower

/-- `headSegment p l` holds when `p` is an initial segment of `l`. -/
def headSegment : List Char → List Char → Bool
  | [], _ => true
  | _ :: _, [] => false
  | p :: ps, q :: qs => p = q && headSegment ps qs

/-- First-position-to-last scan for an occurrence of `p` inside `l`. -/
def listContainsSub (p : List Char) : List Char → Bool
  | [] => p.isEmpty
  | c :: rest => headSegment p (c :: rest) || listContainsSub p rest

/-- Kotlin `s.contains(pat, ignoreCase = true)`. -/
def containsIgnoreCase (s pat : String) : Bool :=
  listContainsSub (lcList pat) (lcList s)

/-- Specification-level reading of "contains (case-insensitive substring)":
the lower-cased text decomposes around the lower-cased token. -/
def ContainsToken (s pat : String) : Prop :=
  ∃ l r, lcList s = l ++ lcList pat ++ r

theorem headSegment_iff (p l : List Char) :
    headSegment p l = true ↔ ∃ r, l = p ++ r := by
  induction p generalizing l with
  | nil => simp [headSegment]
  | cons a ps ih =>
    cases l with
    | nil => simp [headSegment]
    | cons b qs =>
      simp only [headSegment, Bool.and_eq_true, decide_eq_true_eq, ih,
        List.cons_append, List.cons.injEq]
      constructor
      · rintro ⟨rfl, r, rfl⟩; exact ⟨r, rfl, rfl⟩
      · rintro ⟨r, rfl, rfl⟩; exact ⟨rfl, r, rfl⟩

theorem listContainsSub_iff (p l : List Char) :
    listContainsSub p l = true ↔ ∃ pre post, l = pre ++ p ++ post := by
  induction l with
  | nil =>
    simp only [listContainsSub, List.isEmpty_iff]
    constructor
    · rintro rfl; exact ⟨[], [], rfl⟩
    · rintro ⟨pre, post, h⟩
      rcases List.append_eq_nil.mp (List.append_eq_nil.mp h.symm).1 with ⟨-, h2⟩
      exact h2
  | cons c rest ih =>
    simp only [listContainsSub, Bool.or_eq_true, headSegment_iff, ih]
    constructor
    · rintro (⟨r, hr⟩ | ⟨pre, post, hp⟩)
      · exact ⟨[], r, by simpa using hr⟩
      · exact ⟨c :: pre, post, by simp [hp]⟩
    · rintro ⟨pre, post, hp⟩
      cases pre with
      | nil => exact Or.inl ⟨post, by simpa using hp⟩
      | cons d pre' =>
        obtain ⟨rfl, htail⟩ := List.cons.injEq .. ▸ hp
        exact Or.inr ⟨pre', post, htail⟩

theorem containsIgnoreCase_iff (s pat : String) :
    containsIgnoreCase s pat = true ↔ ContainsToken s pat := by
  unfold containsIgnoreCase ContainsToken
  exact listContainsSub_iff _ _

/-! ## ProjectionClassifier

Lines 421–424 of `ExpoGdalPdfiumModule.kt`: a raster-open failure is
eligible for the fallback exactly when `isGeodetic` is true of the
diagnostic returned by `gdal.GetLastErrorMsg()` (possibly absent). -/

/-- `isGeodetic` from the source:
`gdalError != null && (gdalError.contains("GEODETIC", true) ||
 (gdalError.contains("Unhandled", true) && gdalError.contains("ProjectionType", true)))`. -/
def isGeodetic : Option String → Bool
  | none => false
  | some e =>
      containsIgnoreCase e "GEODETIC" ||
        (containsIgnoreCase e "Unhandled" && containsIgnoreCase e "ProjectionType")

/-- The two classification outcomes of the spec's `ProjectionClassifier`. -/
inductive Scheme where
  | unsupportedScheme
  | other
  deriving DecidableEq, Repr

/-- `classify`: the failure diagnostic is `UnsupportedScheme` when
`isGeodetic` accepts it, `Other` otherwise. -/
def classify (detail : Option String) : Scheme :=
  if isGeodetic detail then .unsupportedScheme else .other

/-! ## Strategy B: byte-pattern scan (`tryExtractMetadataWithOGR`)

The source reads the first `min(fileSize, 1 MiB)` bytes as ISO-8859-1 text
and runs `java.util.regex` searches over it.  The embedding takes that text
as a character list and reproduces the regex semantics directly:
`Matcher.find` tries candidate start positions left to right, and each
numeric group is `[-+]?\d+\.?\d*` (greedy, ASCII digits), with `\s+` /
`\s*` the Java whitespace class. -/

/-- Java regex `\s`: space, tab, newline, vertical tab, form feed,
carriage return. -/
def isJavaSpace (c : Char) : Bool :=
  c = ' ' || c = '\t' || c = '\n' || c = '\x0b' || c = '\x0c' || c = '\r'

/-- Numeric value of a run of ASCII digits. -/
def digitsVal (ds : List Char) : ℕ :=
  ds.foldl (fun a c => 10 * a + (c.toNat - 48)) 0

/-- Match the group `[-+]?\d+\.?\d*` at the head of `l`, returning the
parsed value (Java `toDouble` of the matched text, taken exactly) and the
unconsumed remainder.  The sign is optional, at least one integer digit is
required, the dot and fractional digits are optional. -/
def matchNum (l : List Char) : Option (ℚ × List Char) :=
  let (sgn, l1) : ℚ × List Char :=
    match l with
    | '-' :: rest => (-1, rest)
    | '+' :: rest => (1, rest)
    | _ => (1, l)
  let intDs := l1.takeWhile Char.isDigit
  let l2 := l1.dropWhile Char.isDigit
  if intDs.isEmpty then none
  else
    match l2 with
    | '.' :: l3 =>
        let fracDs := l3.takeWhile Char.isDigit
        let l4 := l3.dropWhile Char.isDigit
        some (sgn * ((digitsVal intDs : ℚ) +
          (digitsVal fracDs : ℚ) / ((10 : ℚ) ^ fracDs.length)), l4)
    | _ => some (sgn * (digitsVal intDs : ℚ), l2)

/-- Match `<tag>\s+([-+]?\d+\.?\d*)` anchored at the head of `l`. -/
def matchTagAt (tag : List Char) (l : List Char) : Option ℚ :=
  if headSegment tag l then
    let rest := l.drop tag.length
    let ws := rest.takeWhile isJavaSpace
    if ws.isEmpty then none
    else (matchNum (rest.dropWhile isJavaSpace)).map Prod.fst
  else none

/-- `Matcher.find`: value of the first (leftmost) occurrence of the tag
pattern in the content. -/
def findTag (tag : List Char) : List Char → Option ℚ
  | [] => none
  | c :: rest =>
      match matchTagAt tag (c :: rest) with
      | some v => some v
      | none => findTag tag rest

/-- Pattern 1 of the scan: the `/LLX`, `/LLY`, `/URX`, `/URY` matchers each
`find` their first occurrence; if all four match and the parsed values pass
the WGS84 range check, the extent is built with lower-left X as the left
longitude and upper-right Y as the top latitude. -/
def scanPattern1 (content : List Char) : Option GeoMetadata :=
  match findTag "/LLX".toList content, findTag "/LLY".toList content,
      findTag "/URX".toList content, findTag "/URY".toList content with
  | some llx, some lly, some urx, some ury =>
      if llx ≥ -180 ∧ llx ≤ 180 ∧ lly ≥ -90 ∧ lly ≤ 90 ∧
          urx ≥ -180 ∧ urx ≤ 180 ∧ ury ≥ -90 ∧ ury ≤ 90 then
        some
          { topLeftLng := llx
            topLeftLat := ury
            topRightLng := urx
            topRightLat := ury
            bottomLeftLng := llx
            bottomLeftLat := lly
            bottomRightLng := urx
            bottomRightLat := lly
            centerLng := (llx + urx) / 2
            centerLat := (lly + ury) / 2 }
      else none
  | _, _, _, _ => none

/-- Match `\[\s*(n)\s+(n)\s+(n)\s+(n)\s*\]` anchored at the head of `l`,
with `n` the numeric group of `matchNum`. -/
def matchBBoxAt (l : List Char) : Option (ℚ × ℚ × ℚ × ℚ) :=
  match l with
  | '[' :: r0 =>
      match matchNum (r0.dropWhile isJavaSpace) with
      | none => none
      | some (c1, r1) =>
          if (r1.takeWhile isJavaSpace).isEmpty then none
          else
            match matchNum (r1.dropWhile isJavaSpace) with
            | none => none
            | some (c2, r2) =>
                if (r2.takeWhile isJavaSpace).isEmpty then none
                else
                  match matchNum (r2.dropWhile isJavaSpace) with
                  | none => none
                  | some (c3, r3) =>
                      if (r3.takeWhile isJavaSpace).isEmpty then none
                      else
                        match matchNum (r3.dropWhile isJavaSpace) with
                        | none => none
                        | some (c4, r4) =>
                            match r4.dropWhile isJavaSpace with
                            | ']' :: _ => some (c1, c2, c3, c4)
                            | _ => none
  | _ => none

/-- Pattern 2 of the scan: the `while (bboxMatcher.find())` loop.  Matches
are found in document order; a match whose four numbers fail the range
check is skipped and the search continues.  (Re-scanning from the next
character is equivalent to Java's continue-after-the-match because a
bracketed-group match contains no `[` after its first character, so no
match can start strictly inside another.) -/
def scanBBox : List Char → Option GeoMetadata
  | [] => none
  | c :: rest =>
      match matchBBoxAt (c :: rest) with
      | some (c1, c2, c3, c4) =>
          if c1 ≥ -180 ∧ c1 ≤ 180 ∧ c2 ≥ -90 ∧ c2 ≤ 90 ∧
              c3 ≥ -180 ∧ c3 ≤ 180 ∧ c4 ≥ -90 ∧ c4 ≤ 90 then
            some
              { topLeftLng := min c1 c3
                topLeftLat := max c2 c4
                topRightLng := max c1 c3
                topRightLat := max c2 c4
                bottomLeftLng := min c1 c3
                bottomLeftLat := min c2 c4
                bottomRightLng := max c1 c3
                bottomRightLat := min c2 c4
                centerLng := (min c1 c3 + max c1 c3) / 2
                centerLat := (min c2 c4 + max c2 c4) / 2 }
          else scanBBox rest
      | none => scanBBox rest

/-- The full coordinate-pattern scan body: pattern 1 first; when it does
not produce an extent (a matcher missed, or the range check failed),
pattern 2; `none` when neither finds valid coordinates. -/
def scanForCoordinates (content : List Char) : Option GeoMetadata :=
  match scanPattern1 content with
  | some m => some m
  | none => scanBBox content

/-- `tryExtractMetadataWithOGR`: re-checks that the file exists and is
readable, then scans its first-1-MiB text (`content`). -/
def tryExtractMetadataWithOGR (fileExists canRead : Bool)
    (content : List Char) : Option GeoMetadata :=
  if !fileExists || !canRead then none
  else scanForCoordinates content

/-! ## Strategy C: OGR vector extent (`tryExtractMetadataWithOGRVector`)

The OGR side of the library is an oracle: a data source is `none` when
`ogr.Open` returns null, otherwise a list of layers (`GetLayer` may yield
null entries).  A layer's observable data is its spatial reference (absent
when `GetSpatialRef` is null, otherwise whether `IsSame` with the
EPSG:4326 reference is non-zero), its `GetExtent(true)` array, and the
behaviour of the `CoordinateTransformation` from its reference to WGS84.

Native-handle accounting: the embedding records an acquisition event for
each handle-owning native object the source creates (`ogr.Open` data
source, `SpatialReference()` construction, `CoordinateTransformation()`
construction) and a release event for each explicit `delete()`. -/

/-- The kinds of native handles the recovery strategies create. -/
inductive HandleKind where
  | dataSource
  | spatialRef
  | coordTransform
  deriving DecidableEq, Repr

/-- A handle acquisition or release, in program order. -/
inductive HandleEvent where
  | acquire (k : HandleKind)
  | release (k : HandleKind)
  deriving DecidableEq, Repr

/-- Observable data of one OGR layer. -/
structure VectorLayer where
  /-- `GetSpatialRef()`: `none` when null, otherwise `some b` with `b` true
  iff `IsSame` with the WGS84 reference returns non-zero. -/
  spatialRef : Option Bool
  /-- `GetExtent(true)`: `none` when null; the source reads indices 0–3 as
  `minX, maxX, minY, maxY` after checking `size >= 4`. -/
  extent : Option (List ℚ)
  /-- Behaviour of `CoordinateTransformation(spatialRef, WGS84)
  .TransformPoint` on an (x, y) pair. -/
  transform : ℚ × ℚ → ℚ × ℚ

/-- The extent built directly from ordered bounds (`use the bounds as-is`). -/
def boundsExtent (minX maxX minY maxY : ℚ) : GeoMetadata :=
  { topLeftLng := minX
    topLeftLat := maxY
    topRightLng := maxX
    topRightLat := maxY
    bottomLeftLng := minX
    bottomLeftLat := minY
    bottomRightLng := maxX
    bottomRightLat := minY
    centerLng := (minX + maxX) / 2
    centerLat := (minY + maxY) / 2 }

/-- The branch of the layer body after the range check: the source builds
the WGS84 target reference (`SpatialReference()` + `ImportFromEPSG(4326)`),
then reprojects the two extent corners when
`spatialRef != null && spatialRef.IsSame(targetSRS) == 0`, and uses the
bounds as-is otherwise.  (`some b` is a non-null `GetSpatialRef` whose
`IsSame` answer is non-zero iff `b`; the `transform != null` guard of the
source cannot fail, a JVM constructor never returns null.) -/
def srsBranch (transform : ℚ × ℚ → ℚ × ℚ) (minX maxX minY maxY : ℚ) :
    Option Bool → Option GeoMetadata × List HandleEvent
  | some false =>
      let (tminX, tminY) := transform (minX, minY)
      let (tmaxX, tmaxY) := transform (maxX, maxY)
      (some (boundsExtent tminX tmaxX tminY tmaxY),
        [.acquire .spatialRef, .acquire .coordTransform])
  | some true => (some (boundsExtent minX maxX minY maxY), [.acquire .spatialRef])
  | none => (some (boundsExtent minX maxX minY maxY), [.acquire .spatialRef])

/-- Per-layer body of the `for (i in 0 until layerCount)` loop: range-check
the extent (`extent.size >= 4` with indices 0–3 the four bounds), then
reproject or keep the bounds.  Returns the extent produced (if any)
together with the handle events of this iteration. -/
def vectorLayerStep (L : VectorLayer) : Option GeoMetadata × List HandleEvent :=
  match L.extent with
  | none => (none, [])
  | some (minX :: maxX :: minY :: maxY :: _) =>
      if minX ≥ -180 ∧ maxX ≤ 180 ∧ minY ≥ -90 ∧ maxY ≤ 90 then
        srsBranch L.transform minX maxX minY maxY L.spatialRef
      else (none, [])
  | some _ => (none, [])

/-- The layer loop: null layers are skipped (`continue`); the first layer
that yields an extent returns it. -/
def vectorLayerLoop : List (Option VectorLayer) → Option GeoMetadata × List HandleEvent
  | [] => (none, [])
  | none :: rest => vectorLayerLoop rest
  | some L :: rest =>
      match vectorLayerStep L with
      | (some m, ev) => (some m, ev)
      | (none, ev) => ((vectorLayerLoop rest).1, ev ++ (vectorLayerLoop rest).2)

/-- `tryExtractMetadataWithOGRVector`: open the data source (acquiring its
handle), run the layer loop, and release the data source in the `finally`
block on every exit path. -/
def tryExtractMetadataWithOGRVector :
    Option (List (Option VectorLayer)) → Option GeoMetadata × List HandleEvent
  | none => (none, [])
  | some layers =>
      ((vectorLayerLoop layers).1,
        .acquire .dataSource :: (vectorLayerLoop layers).2 ++
          [.release .dataSource])

/-! ## The recovery chain of the fallback path

Lines 433–437 of the source: the byte-pattern scan first, then — only when
it produced nothing — the OGR vector strategy.  The geotransform-based
extractor `extractGeospatialMetadata` is *not* part of this chain. -/

/-- The three recovery strategies the specification names. -/
inductive Strategy where
  | geotransform
  | byteScan
  | vectorExtent
  deriving DecidableEq, Repr

/-- The metadata the fallback path recovers. -/
def recoverMetadata (fileExists canRead : Bool) (content : List Char)
    (ds : Option (List (Option VectorLayer))) : Option GeoMetadata :=
  match tryExtractMetadataWithOGR fileExists canRead content with
  | some m => some m
  | none => (tryExtractMetadataWithOGRVector ds).1

/-- Which strategies the fallback path invokes, in order. -/
def invokedStrategies (fileExists canRead : Bool) (content : List Char) :
    List Strategy :=
  match tryExtractMetadataWithOGR fileExists canRead content with
  | some _ => [.byteScan]
  | none => [.byteScan, .vectorExtent]

/-! ## Strategy A: `extractGeospatialMetadata` (defined but never called)

The geotransform-based extractor of lines 807–951.  It reopens the file
through the raster interface (an oracle), computes corners from the
geotransform, reprojects unless the projection text already names WGS84,
validates only the top-left corner, and returns all-zero coordinates on
any failure (its return type is not optional). -/

/-- The six `GetGeoTransform` coefficients. -/
structure GeoTransform where
  g0 : ℚ
  g1 : ℚ
  g2 : ℚ
  g3 : ℚ
  g4 : ℚ
  g5 : ℚ
  deriving DecidableEq, Repr

/-- The coefficient list in array order. -/
def GeoTransform.toList (gt : GeoTransform) : List ℚ :=
  [gt.g0, gt.g1, gt.g2, gt.g3, gt.g4, gt.g5]

/-- Observable data of a raster dataset opened through `gdal.Open`. -/
structure RasterDataset where
  width : ℕ
  height : ℕ
  bandCount : ℕ
  geoTransform : GeoTransform
  /-- `GetProjectionRef()` (`none` when null). -/
  projectionRef : Option String
  /-- `GetProjection()` (`none` when null). -/
  projection : Option String
  /-- Outcome of the whole WKT-import / transform-construction /
  `TransformPoint` block: `some f` when it runs to completion with
  point behaviour `f`; `none` when any step throws (the source then keeps
  the native coordinates). -/
  transformOutcome : Option (ℚ × ℚ → ℚ × ℚ)
  /-- `GetRasterBand(i)` and the byte buffer `ReadRaster` fills for it:
  `none` when the band is null. -/
  bands : ℕ → Option (ℕ → ℕ)

/-- `extractGeospatialMetadata`. -/
def extractGeospatialMetadata (reopened : Option RasterDataset) : GeoMetadata :=
  match reopened with
  | none => zeroMetadata
  | some d =>
      let gt := d.geoTransform
      if gt.g0 ≠ 0 ∨ gt.g3 ≠ 0 then
        let topLeftX := gt.g0
        let topLeftY := gt.g3
        let pixelWidth := gt.g1
        let pixelHeight := gt.g5
        let topRightX := topLeftX + d.width * pixelWidth
        let topRightY := topLeftY
        let bottomLeftX := topLeftX
        let bottomLeftY := topLeftY + d.height * pixelHeight
        let bottomRightX := topLeftX + d.width * pixelWidth
        let bottomRightY := topLeftY + d.height * pixelHeight
        let projectionWkt := d.projectionRef
        let needsTransform : Bool :=
          match projectionWkt with
          | some s => !s.isEmpty && !containsIgnoreCase s "WGS 84"
          | none => false
        let coords :=
          if needsTransform then
            match d.transformOutcome with
            | some f =>
                (f (topLeftX, topLeftY), f (topRightX, topRightY),
                 f (bottomLeftX, bottomLeftY), f (bottomRightX, bottomRightY))
            | none =>
                ((topLeftX, topLeftY), (topRightX, topRightY),
                 (bottomLeftX, bottomLeftY), (bottomRightX, bottomRightY))
          else
            ((topLeftX, topLeftY), (topRightX, topRightY),
             (bottomLeftX, bottomLeftY), (bottomRightX, bottomRightY))
        match coords with
        | ((tlLng, tlLat), (trLng, trLat), (blLng, blLat), (brLng, brLat)) =>
            if tlLng ≥ -180 ∧ tlLng ≤ 180 ∧ tlLat ≥ -90 ∧ tlLat ≤ 90 then
              { topLeftLng := tlLng
                topLeftLat := tlLat
                topRightLng := trLng
                topRightLat := trLat
                bottomLeftLng := blLng
                bottomLeftLat := blLat
                bottomRightLng := brLng
                bottomRightLat := brLat
                centerLng := (tlLng + brLng) / 2
                centerLat := (tlLat + brLat) / 2 }
            else zeroMetadata
      else zeroMetadata

/-! ## Response envelopes

`createResponseMap` builds every value the module resolves its promises
with.  Kotlin `Map<String, Any>` values are modelled as association lists
preserving `mapOf` insertion order. -/

/-- The value types the response maps carry. -/
inductive JVal where
  /-- A string payload. -/
  | str (v : String)
  /-- A boolean payload. -/
  | bool (v : Bool)
  /-- A stringified `Double` payload, modelled by its numeric value. -/
  | num (v : ℚ)
  /-- A nested map. -/
  | obj (v : List (String × JVal))
  /-- A list payload. -/
  | arr (v : List JVal)
  deriving Repr

/-- A response map: the top-level value resolved to the caller. -/
abbrev ResponseMap := List (String × JVal)

/-- First value bound to a key, if any. -/
def lookupKey (k : String) : ResponseMap → Option JVal
  | [] => none
  | (k', v) :: rest => if k' = k then some v else lookupKey k rest

/-- `createResponseMap(msg, code, error, result)`: the uniform envelope.
A null `result` is replaced by an empty map before being stored. -/
def createResponseMap (msg code : String) (error : Bool)
    (result : Option ResponseMap) : ResponseMap :=
  [("msg", .str msg), ("code", .str code), ("error", .bool error),
   ("result", .obj (result.getD []))]

/-- The closed error-code set of the module's contract. -/
def errorCodes : List String :=
  ["SUCCESS", "CLASS_NOT_FOUND", "NATIVE_LIBRARY_ERROR", "FILE_NOT_FOUND",
   "FILE_EMPTY", "FILE_PERMISSION_DENIED", "GDAL_OPEN_FAILED", "RENDER_ERROR",
   "DRIVER_NOT_FOUND", "ERROR"]

/-- Envelope well-formedness: exactly the four fields `msg`, `code`,
`error`, `result` in order, with a string message, a code from the closed
set, a boolean error flag and an object result. -/
def envelopeOk : ResponseMap → Bool
  | [("msg", .str _), ("code", .str c), ("error", .bool _), ("result", .obj _)] =>
      errorCodes.contains c
  | _ => false

theorem envelopeOk_createResponseMap (msg code : String) (error : Bool)
    (result : Option ResponseMap) :
    envelopeOk (createResponseMap msg code error result) =
      errorCodes.contains code := rfl

/-- An environment failure caught by a handler: a missing binding class,
a missing native library, or any other exception (with its nullable
message and its class simple name). -/
inductive EnvFailure where
  | classNotFound (msg : Option String)
  | nativeLib (msg : Option String)
  | other (msg : Option String) (ty : String)

/-- Kotlin string interpolation of a nullable: `"${e.message}"`. -/
def interpNullable (m : Option String) : String :=
  m.getD "null"

/-- Kotlin `e.message ?: "Unknown error"`. -/
def msgOrUnknown (m : Option String) : String :=
  m.getD "Unknown error"

/-! ### `getVersionInfo` -/

/-- Oracle inputs of `getVersionInfo`. -/
structure VersionWorld where
  env : Option EnvFailure
  version : Option String
  versionNum : Option String
  releaseDate : Option String

/-- `getVersionInfo`: query the three `gdal.VersionInfo` strings
(`?: "Unknown"` on null) or convert a caught failure. -/
def getVersionInfo (w : VersionWorld) : ResponseMap :=
  match w.env with
  | some (.classNotFound m) =>
      createResponseMap
        "GDAL classes not found. Please verify the .aar package structure."
        "CLASS_NOT_FOUND" true
        (some [("errorDetails", .str (msgOrUnknown m))])
  | some (.nativeLib m) =>
      createResponseMap
        "GDAL native library not loaded. Check native library configuration."
        "NATIVE_LIBRARY_ERROR" true
        (some [("errorDetails", .str (msgOrUnknown m))])
  | some (.other m ty) =>
      createResponseMap ("Error getting version info: " ++ interpNullable m)
        "ERROR" true
        (some [("errorDetails", .str (msgOrUnknown m)), ("errorType", .str ty)])
  | none =>
      createResponseMap "Version info retrieved successfully" "SUCCESS" false
        (some
          [("version", .str (w.version.getD "Unknown")),
           ("versionNum", .str (w.versionNum.getD "Unknown")),
           ("releaseDate", .str (w.releaseDate.getD "Unknown"))])

/-! ### `listDrivers` -/

/-- Oracle inputs of `listDrivers`: the registered drivers in registry
order; a list entry is `none` when `GetDriver(i)` returns null, otherwise
its nullable short and long names. -/
structure DriversWorld where
  env : Option EnvFailure
  drivers : List (Option (Option String × Option String))

/-- `listDrivers`: enumerate the registry, skipping null drivers and
defaulting null names to `"Unknown"`. -/
def listDrivers (w : DriversWorld) : ResponseMap :=
  match w.env with
  | some (.classNotFound m) =>
      createResponseMap
        "GDAL classes not found. Please verify the .aar package structure."
        "CLASS_NOT_FOUND" true
        (some [("errorDetails", .str (msgOrUnknown m))])
  | some (.nativeLib m) =>
      createResponseMap
        "GDAL native library not loaded. Check native library configuration."
        "NATIVE_LIBRARY_ERROR" true
        (some [("errorDetails", .str (msgOrUnknown m))])
  | some (.other m ty) =>
      createResponseMap ("Error listing drivers: " ++ interpNullable m)
        "ERROR" true
        (some [("errorDetails", .str (msgOrUnknown m)), ("errorType", .str ty)])
  | none =>
      createResponseMap "Drivers retrieved successfully" "SUCCESS" false
        (some
          [("driverCount", .str (toString w.drivers.length)),
           ("drivers", .arr (w.drivers.filterMap fun d =>
              d.map fun (sn, ln) =>
                .obj [("shortName", .str (sn.getD "Unknown")),
                      ("longName", .str (ln.getD "Unknown"))]))])

/-! ### `readGeoPDF` -/

/-- `GetRasterBand` information used by `readGeoPDF`. -/
structure BandInfo where
  dataType : ℤ
  blockWidth : ℤ
  blockHeight : ℤ

/-- Observable dataset data `readGeoPDF` reads. -/
structure ReadDataset where
  width : ℤ
  height : ℤ
  bandCount : ℕ
  /-- `GetProjectionRef() ?: "Unknown"` applies to the null case. -/
  projection : Option String
  /-- `GetDriver()` (nullable), then `getShortName()` (nullable). -/
  driver : Option (Option String)
  geoTransform : GeoTransform
  /-- `GetRasterBand(i)`, null entries skipped by `band?.let`. -/
  bandInfo : ℕ → Option BandInfo

/-- Oracle inputs of `readGeoPDF`. -/
structure ReadWorld where
  env : Option EnvFailure
  filePath : String
  /-- `gdal.Open`: `none` when it returns null. -/
  dataset : Option ReadDataset

/-- `readGeoPDF`: open the dataset, read its description, and release it in
the `finally` block; a null dataset yields the `FILE_NOT_FOUND` envelope. -/
def readGeoPDF (w : ReadWorld) : ResponseMap :=
  match w.env with
  | some (.classNotFound m) =>
      createResponseMap "GDAL classes not found" "CLASS_NOT_FOUND" true
        (some [("errorDetails", .str (msgOrUnknown m))])
  | some (.nativeLib m) =>
      createResponseMap "GDAL native library not loaded" "NATIVE_LIBRARY_ERROR"
        true (some [("errorDetails", .str (msgOrUnknown m))])
  | some (.other m ty) =>
      createResponseMap ("Error reading GeoPDF: " ++ interpNullable m)
        "ERROR" true
        (some [("errorDetails", .str (msgOrUnknown m)), ("errorType", .str ty)])
  | none =>
      match w.dataset with
      | none =>
          createResponseMap "Failed to open GeoPDF file" "FILE_NOT_FOUND" true
            (some [("errorDetails",
              .str ("Could not open file: " ++ w.filePath))])
      | some d =>
          createResponseMap "GeoPDF read successfully" "SUCCESS" false
            (some
              [("filePath", .str w.filePath),
               ("width", .str (toString d.width)),
               ("height", .str (toString d.height)),
               ("bandCount", .str (toString (d.bandCount : ℤ))),
               ("driver", .str ((d.driver.getD none).getD "Unknown")),
               ("projection", .str (d.projection.getD "Unknown")),
               ("geoTransform", .arr (d.geoTransform.toList.map .num)),
               ("bands", .arr (((List.range d.bandCount).map (· + 1)).filterMap
                  fun i => (d.bandInfo i).map fun b =>
                    .obj [("bandNumber", .str (toString (i : ℤ))),
                          ("dataType", .str (toString b.dataType)),
                          ("blockWidth", .str (toString b.blockWidth)),
                          ("blockHeight", .str (toString b.blockHeight))]))])

/-! ### `renderGeoPDFToPng` -/

/-- A written PNG: its pixel dimensions and its ARGB words
(`a·2²⁴ + r·2¹⁶ + g·2⁸ + b` per index). -/
structure PngOut where
  width : ℕ
  height : ℕ
  pixels : ℕ → ℕ

/-- Observable data of a document opened through Android `PdfRenderer`. -/
structure PdfDoc where
  pageCount : ℕ
  /-- `page.width` of page 0, in points. -/
  pageWidth : ℕ
  /-- `page.height` of page 0, in points. -/
  pageHeight : ℕ

/-- Oracle inputs of `renderGeoPDFToPng`: the file-system answers, the
raster open result, the fallback chain's inputs, the PdfRenderer document
and the PNG write outcomes. -/
structure RenderWorld where
  inputPath : String
  outputPath : String
  env : Option EnvFailure
  fileExists : Bool
  fileLength : ℕ
  canRead : Bool
  canWrite : Bool
  isFile : Bool
  isDirectory : Bool
  absolutePath : String
  /-- `gdal.Open(inputPath)`: `none` when it returns null. -/
  dataset : Option RasterDataset
  /-- `gdal.GetLastErrorMsg()` after a failed open (`none` when null). -/
  gdalErrorMsg : Option String
  /-- `gdal.GetLastErrorType()` after a failed open. -/
  gdalErrorType : ℤ
  /-- PNG write on the primary path: `some m` when `compress`/`close`
  throws with nullable message `m`. -/
  pngWriteException : Option (Option String)
  /-- Primary path: `outputFile.exists() && length > 0` after the write. -/
  pngWriteOk : Bool
  /-- The first `min(fileSize, 1 MiB)` bytes of the file as ISO-8859-1
  text (strategy B's input). -/
  fileContent : List Char
  /-- `ogr.Open(pdfPath, 0)` (strategy C's input). -/
  vectorSource : Option (List (Option VectorLayer))
  /-- `ParcelFileDescriptor.open` + `PdfRenderer` construction: `none`
  when either throws. -/
  pdfDoc : Option PdfDoc
  /-- Content of the bitmap `page.render` produces, as ARGB words. -/
  pageBitmap : ℕ → ℕ
  /-- Fallback path: `outputFile.exists() && length > 0` after the write. -/
  fallbackPngOk : Bool

/-- The x/y sub-map of one coordinate pair (`mapOf("x" to …, "y" to …)`). -/
def pointObj (x y : ℚ) : JVal :=
  .obj [("x", .num x), ("y", .num y)]

/-- The `RENDER_ERROR` envelope with the given details. -/
def renderError (details : String) : ResponseMap :=
  createResponseMap "Failed to render GeoPDF to PNG" "RENDER_ERROR" true
    (some [("errorDetails", .str details)])

/-- `renderPDFWithAndroidPdfRenderer`: render page 0 at scale 4 and write
it as a PNG; `none` models every `return null` path (inaccessible file,
open failure, empty document, failed write).  On success it returns the
fallback envelope — tagged `renderedWith = "AndroidPdfRenderer"` and
carrying `metadataExtracted` plus the recovered (or all-zero) corners —
together with the written image. -/
def renderPDFWithAndroidPdfRenderer (w : RenderWorld)
    (metadata : Option GeoMetadata) : Option (ResponseMap × PngOut) :=
  if !w.fileExists || !w.canRead then none
  else
    match w.pdfDoc with
    | none => none
    | some doc =>
        if doc.pageCount = 0 then none
        else
          let width := doc.pageWidth * 4
          let height := doc.pageHeight * 4
          if !w.fallbackPngOk then none
          else
            let finalMetadata := metadata.getD zeroMetadata
            some
              (createResponseMap
                "GeoPDF rendered to PNG successfully (using Android PdfRenderer fallback)"
                "SUCCESS" false
                (some
                  [("inputPath", .str w.inputPath),
                   ("outputPath", .str w.outputPath),
                   ("width", .str (toString width)),
                   ("height", .str (toString height)),
                   ("renderedWith", .str "AndroidPdfRenderer"),
                   ("metadataExtracted", .bool metadata.isSome),
                   ("topLeft", pointObj finalMetadata.topLeftLng finalMetadata.topLeftLat),
                   ("topRight", pointObj finalMetadata.topRightLng finalMetadata.topRightLat),
                   ("bottomLeft", pointObj finalMetadata.bottomLeftLng finalMetadata.bottomLeftLat),
                   ("bottomRight", pointObj finalMetadata.bottomRightLng finalMetadata.bottomRightLat),
                   ("center", pointObj finalMetadata.centerLng finalMetadata.centerLat)]),
               ⟨width, height, w.pageBitmap⟩)

/-- The WGS84 corner/center coordinates of the primary path: corners from
the geotransform (zero rotation assumed by the source), passed through the
coordinate transform when a non-empty projection is available and the
transform block does not throw, kept native otherwise. -/
def primaryCoords (d : RasterDataset) : GeoMetadata :=
  let gt := d.geoTransform
  let topLeftX := gt.g0
  let topLeftY := gt.g3
  let pixelWidth := gt.g1
  let pixelHeight := gt.g5
  let topRightX := topLeftX + d.width * pixelWidth
  let topRightY := topLeftY
  let bottomLeftX := topLeftX
  let bottomLeftY := topLeftY + d.height * pixelHeight
  let bottomRightX := topLeftX + d.width * pixelWidth
  let bottomRightY := topLeftY + d.height * pixelHeight
  let centerX := topLeftX + ((d.width : ℚ) / 2) * pixelWidth
  let centerY := topLeftY + ((d.height : ℚ) / 2) * pixelHeight
  let native : GeoMetadata :=
    { topLeftLng := topLeftX
      topLeftLat := topLeftY
      topRightLng := topRightX
      topRightLat := topRightY
      bottomLeftLng := bottomLeftX
      bottomLeftLat := bottomLeftY
      bottomRightLng := bottomRightX
      bottomRightLat := bottomRightY
      centerLng := centerX
      centerLat := centerY }
  let projectionWkt : Option String :=
    match d.projectionRef with
    | some s => if s.isEmpty then d.projection else some s
    | none => d.projection
  let hasProjection : Bool :=
    match projectionWkt with
    | some s => !s.isEmpty
    | none => false
  if hasProjection then
    match d.transformOutcome with
    | some f =>
        let (tlLng, tlLat) := f (topLeftX, topLeftY)
        let (trLng, trLat) := f (topRightX, topRightY)
        let (blLng, blLat) := f (bottomLeftX, bottomLeftY)
        let (brLng, brLat) := f (bottomRightX, bottomRightY)
        let (cLng, cLat) := f (centerX, centerY)
        { topLeftLng := tlLng
          topLeftLat := tlLat
          topRightLng := trLng
          topRightLat := trLat
          bottomLeftLng := blLng
          bottomLeftLat := blLat
          bottomRightLng := brLng
          bottomRightLat := brLat
          centerLng := cLng
          centerLat := cLat }
    | none => native
  else native

/-- Band decoding of the primary path: `band count ≥ 3` reads RGB (band 4
as alpha when present, opaque otherwise), `band count == 1` replicates the
grayscale band across the RGB channels, anything else is the
unsupported-band-count failure.  Channel bytes are masked with `0xFF`. -/
def decodePixels (d : RasterDataset) : Except ResponseMap (ℕ → ℕ) :=
  if d.bandCount ≥ 3 then
    match d.bands 1, d.bands 2, d.bands 3 with
    | some red, some green, some blue =>
        let alpha : Option (ℕ → ℕ) :=
          if d.bandCount ≥ 4 then d.bands 4 else none
        .ok fun idx =>
          let r := red idx % 256
          let g := green idx % 256
          let b := blue idx % 256
          let a := match alpha with
            | some al => al idx % 256
            | none => 255
          (a <<< 24) ||| (r <<< 16) ||| (g <<< 8) ||| b
    | _, _, _ => .error (renderError "Could not read RGB bands from dataset")
  else if d.bandCount = 1 then
    match d.bands 1 with
    | some gray =>
        .ok fun idx =>
          let g := gray idx % 256
          (255 <<< 24) ||| (g <<< 16) ||| (g <<< 8) ||| g
    | none => .error (renderError "Could not read grayscale band from dataset")
  else
    .error (renderError ("Unsupported band count: " ++ toString (d.bandCount : ℤ)))

/-- The primary (raster) render path after a successful `gdal.Open`:
corner computation, band decoding, PNG write, success envelope. -/
def primaryRender (w : RenderWorld) (d : RasterDataset) :
    ResponseMap × Option PngOut :=
  let coords := primaryCoords d
  match decodePixels d with
  | .error e => (e, none)
  | .ok pixels =>
      match w.pngWriteException with
      | some m =>
          (renderError ("Error writing PNG file: " ++ interpNullable m), none)
      | none =>
          if !w.pngWriteOk then
            (renderError ("Failed to write PNG file: " ++ w.outputPath), none)
          else
            (createResponseMap "GeoPDF rendered to PNG successfully" "SUCCESS"
              false
              (some
                [("inputPath", .str w.inputPath),
                 ("outputPath", .str w.outputPath),
                 ("width", .str (toString (d.width : ℤ))),
                 ("height", .str (toString (d.height : ℤ))),
                 ("geoTransform", .arr (d.geoTransform.toList.map .num)),
                 ("topLeft", pointObj coords.topLeftLng coords.topLeftLat),
                 ("topRight", pointObj coords.topRightLng coords.topRightLat),
                 ("bottomLeft", pointObj coords.bottomLeftLng coords.bottomLeftLat),
                 ("bottomRight", pointObj coords.bottomRightLng coords.bottomRightLat),
                 ("center", pointObj coords.centerLng coords.centerLat)]),
             some ⟨d.width, d.height, pixels⟩)

/-- The `GDAL_OPEN_FAILED` envelope of a raster-open failure. -/
def gdalOpenFailed (w : RenderWorld) (isGeo : Bool) : ResponseMap :=
  createResponseMap "Failed to open GeoPDF file for rendering"
    "GDAL_OPEN_FAILED" true
    (some
      [("errorDetails", .str ("GDAL could not open file: " ++ w.inputPath)),
       ("gdalError", .str (w.gdalErrorMsg.getD "No error message available")),
       ("gdalErrorType", .str (toString w.gdalErrorType)),
       ("fileExists", .bool w.fileExists),
       ("fileSize", .str (toString (w.fileLength : ℤ))),
       ("fileCanRead", .bool w.canRead),
       ("isGeodetic", .bool isGeo),
       ("fallbackAttempted", .bool isGeo)])

/-- `renderGeoPDFToPng`: the full render selector.  Returns the envelope
resolved to the caller together with the PNG written at `outputPath`, if
any. -/
def renderGeoPDFToPng (w : RenderWorld) : ResponseMap × Option PngOut :=
  match w.env with
  | some (.classNotFound m) =>
      (createResponseMap "GDAL classes not found" "CLASS_NOT_FOUND" true
        (some [("errorDetails", .str (msgOrUnknown m))]), none)
  | some (.nativeLib m) =>
      (createResponseMap "GDAL native library not loaded"
        "NATIVE_LIBRARY_ERROR" true
        (some [("errorDetails", .str (msgOrUnknown m))]), none)
  | some (.other m ty) =>
      (createResponseMap ("Error rendering GeoPDF: " ++ interpNullable m)
        "ERROR" true
        (some [("errorDetails", .str (msgOrUnknown m)),
               ("errorType", .str ty)]), none)
  | none =>
      if !w.fileExists then
        (createResponseMap "Failed to open GeoPDF file for rendering"
          "FILE_NOT_FOUND" true
          (some
            [("errorDetails", .str ("File does not exist: " ++ w.inputPath)),
             ("fileExists", .bool false),
             ("absolutePath", .str w.absolutePath),
             ("canRead", .bool w.canRead),
             ("canWrite", .bool w.canWrite),
             ("isFile", .bool w.isFile),
             ("isDirectory", .bool w.isDirectory)]), none)
      else if w.fileLength = 0 then
        (createResponseMap "Failed to open GeoPDF file for rendering"
          "FILE_EMPTY" true
          (some [("errorDetails",
            .str ("File is empty (0 bytes): " ++ w.inputPath))]), none)
      else if !w.canRead then
        (createResponseMap "Failed to open GeoPDF file for rendering"
          "FILE_PERMISSION_DENIED" true
          (some [("errorDetails",
            .str ("File exists but cannot be read: " ++ w.inputPath))]), none)
      else
        match w.dataset with
        | some d => primaryRender w d
        | none =>
            let isGeo := isGeodetic w.gdalErrorMsg
            if isGeo then
              let metadata :=
                recoverMetadata w.fileExists w.canRead w.fileContent
                  w.vectorSource
              match renderPDFWithAndroidPdfRenderer w metadata with
              | some (r, png) => (r, some png)
              | none => (gdalOpenFailed w isGeo, none)
            else (gdalOpenFailed w isGeo, none)

/-! ## Claim theorems -/

theorem classify_eq_unsupported_iff (detail : Option String) :
    classify detail = Scheme.unsupportedScheme ↔ isGeodetic detail = true := by
  unfold classify
  split <;> simp_all

/-- C2: the projection classifier maps a diagnostic to `UnsupportedScheme`
exactly when it contains the `GEODETIC` token (case-insensitive substring)
or both the `Unhandled` and `ProjectionType` phrases (case-insensitive);
every other diagnostic — including the empty or absent one — classifies as
`Other`.  In particular the documented geodetic error message classifies as
`UnsupportedScheme` and `"No such file"` as `Other`. -/
theorem projection_classifier_rule :
    (∀ s : String,
      classify (some s) = Scheme.unsupportedScheme ↔
        (ContainsToken s "GEODETIC" ∨
          (ContainsToken s "Unhandled" ∧ ContainsToken s "ProjectionType"))) ∧
    classify (some "Unhandled (yet) value for ProjectionType : GEODETIC") =
      Scheme.unsupportedScheme ∧
    classify (some "No such file") = Scheme.other ∧
    classify none = Scheme.other ∧
    classify (some "") = Scheme.other := by
  refine ⟨fun s => ?_, by decide, by decide, by decide, by decide⟩
  rw [classify_eq_unsupported_iff]
  simp only [isGeodetic, Bool.or_eq_true, Bool.and_eq_true,
    containsIgnoreCase_iff]

/-- C7 (counterexample): a file whose first 1 MiB contains the literal
text `/LLX 10 /LLY 20 /URX 15 /URY 25` but whose scan nevertheless does
not return the claimed extent — an earlier `/LLX 999` occurrence is the
one the first-match search takes, the range check rejects it, and the
whole scan comes back empty. -/
theorem tag_scan_containment_cex :
    (∃ pre post : List Char,
      ("/LLX 999 /LLX 10 /LLY 20 /URX 15 /URY 25").toList =
        pre ++ "/LLX 10 /LLY 20 /URX 15 /URY 25".toList ++ post) ∧
    tryExtractMetadataWithOGR true true
        ("/LLX 999 /LLX 10 /LLY 20 /URX 15 /URY 25").toList = none := by
  exact ⟨⟨"/LLX 999 ".toList, [], by decide⟩, by with_unfolding_all decide⟩

/-- C7 (amended): for every file whose scan finds `10`, `20`, `15`, `25`
as the first-occurrence values of the `/LLX`, `/LLY`, `/URX`, `/URY` tags,
strategy B returns the extent topLeft(10,25), topRight(15,25),
bottomLeft(10,20), bottomRight(15,20), center(12.5,22.5): lower-left X is
the minimum longitude, upper-right Y the maximum latitude, and the center
the arithmetic mean of the bounds. -/
theorem tag_scan_llx_lly_urx_ury (content : List Char)
    (h1 : findTag "/LLX".toList content = some 10)
    (h2 : findTag "/LLY".toList content = some 20)
    (h3 : findTag "/URX".toList content = some 15)
    (h4 : findTag "/URY".toList content = some 25) :
    tryExtractMetadataWithOGR true true content =
      some ⟨10, 25, 15, 25, 10, 20, 15, 20, 25/2, 45/2⟩ := by
  unfold tryExtractMetadataWithOGR scanForCoordinates scanPattern1
  rw [h1, h2, h3, h4]
  norm_num

/-- Witness for the amended C7 theorem at a concrete file. -/
theorem tag_scan_llx_lly_urx_ury_witness :
    tryExtractMetadataWithOGR true true
        "/LLX 10 /LLY 20 /URX 15 /URY 25".toList =
      some ⟨10, 25, 15, 25, 10, 20, 15, 20, 25/2, 45/2⟩ :=
  tag_scan_llx_lly_urx_ury _ (by with_unfolding_all decide)
    (by with_unfolding_all decide) (by with_unfolding_all decide)
    (by with_unfolding_all decide)

/-- C10: the four tag patterns are matched independently, each by its
first occurrence anywhere in the scanned text; whenever each first
occurrence parses to an in-range value, the scan combines the four values
— however far apart they sit in the file — into the single extent built
from them. -/
theorem tag_scan_independent_first_occurrence (content : List Char)
    (llx lly urx ury : ℚ)
    (h1 : findTag "/LLX".toList content = some llx)
    (h2 : findTag "/LLY".toList content = some lly)
    (h3 : findTag "/URX".toList content = some urx)
    (h4 : findTag "/URY".toList content = some ury)
    (hr : llx ≥ -180 ∧ llx ≤ 180 ∧ lly ≥ -90 ∧ lly ≤ 90 ∧
      urx ≥ -180 ∧ urx ≤ 180 ∧ ury ≥ -90 ∧ ury ≤ 90) :
    tryExtractMetadataWithOGR true true content =
      some ⟨llx, ury, urx, ury, llx, lly, urx, lly,
        (llx + urx) / 2, (lly + ury) / 2⟩ := by
  unfold tryExtractMetadataWithOGR scanForCoordinates scanPattern1
  rw [h1, h2, h3, h4]
  simp [hr]

/-- Witness for the C10 theorem: the four tags scattered across unrelated
places of the file, in jumbled order, still produce one extent. -/
theorem tag_scan_independent_first_occurrence_witness :
    tryExtractMetadataWithOGR true true
        "junk /URY 25 more /LLX 10 q /URX 15 zz /LLY 20 end".toList =
      some ⟨10, 25, 15, 25, 10, 20, 15, 20, (10 + 15) / 2, (20 + 25) / 2⟩ :=
  tag_scan_independent_first_occurrence _ 10 20 15 25
    (by with_unfolding_all decide) (by with_unfolding_all decide)
    (by with_unfolding_all decide) (by with_unfolding_all decide) (by decide)

/-! ### Coordinate-range invariant (C4) -/

/-- A longitude within the WGS84 range. -/
def lngOk (q : ℚ) : Prop := -180 ≤ q ∧ q ≤ 180

/-- A latitude within the WGS84 range. -/
def latOk (q : ℚ) : Prop := -90 ≤ q ∧ q ≤ 90

/-- All four corner longitudes and latitudes of an extent are in range. -/
def cornersInRange (m : GeoMetadata) : Prop :=
  lngOk m.topLeftLng ∧ latOk m.topLeftLat ∧
  lngOk m.topRightLng ∧ latOk m.topRightLat ∧
  lngOk m.bottomLeftLng ∧ latOk m.bottomLeftLat ∧
  lngOk m.bottomRightLng ∧ latOk m.bottomRightLat

instance (m : GeoMetadata) : Decidable (cornersInRange m) := by
  unfold cornersInRange lngOk latOk; infer_instance

theorem scanPattern1_range {content : List Char} {m : GeoMetadata}
    (h : scanPattern1 content = some m) : cornersInRange m := by
  unfold scanPattern1 at h
  split at h
  · split at h
    · rename_i hb
      obtain ⟨h1, h2, h3, h4, h5, h6, h7, h8⟩ := hb
      cases h
      exact ⟨⟨h1, h2⟩, ⟨h7, h8⟩, ⟨h5, h6⟩, ⟨h7, h8⟩,
        ⟨h1, h2⟩, ⟨h3, h4⟩, ⟨h5, h6⟩, ⟨h3, h4⟩⟩
    · exact absurd h (by simp)
  · exact absurd h (by simp)

theorem scanBBox_range {content : List Char} {m : GeoMetadata}
    (h : scanBBox content = some m) : cornersInRange m := by
  induction content with
  | nil => simp [scanBBox] at h
  | cons c rest ih =>
    rw [scanBBox] at h
    split at h
    · split at h
      · rename_i hg
        obtain ⟨h1, h2, h3, h4, h5, h6, h7, h8⟩ := hg
        injection h with h
        subst h
        exact ⟨⟨le_min h1 h5, (min_le_left _ _).trans h2⟩,
          ⟨h3.trans (le_max_left _ _), max_le h4 h8⟩,
          ⟨h1.trans (le_max_left _ _), max_le h2 h6⟩,
          ⟨h3.trans (le_max_left _ _), max_le h4 h8⟩,
          ⟨le_min h1 h5, (min_le_left _ _).trans h2⟩,
          ⟨le_min h3 h7, (min_le_left _ _).trans h4⟩,
          ⟨h1.trans (le_max_left _ _), max_le h2 h6⟩,
          ⟨le_min h3 h7, (min_le_left _ _).trans h4⟩⟩
      · exact ih h
    · exact ih h

theorem byteScan_range {fe cr : Bool} {content : List Char} {m : GeoMetadata}
    (h : tryExtractMetadataWithOGR fe cr content = some m) :
    cornersInRange m := by
  unfold tryExtractMetadataWithOGR at h
  split at h
  · simp at h
  · unfold scanForCoordinates at h
    cases hp : scanPattern1 content with
    | some m' => rw [hp] at h; cases h; exact scanPattern1_range hp
    | none => rw [hp] at h; exact scanBBox_range h

/-- A layer whose `GetExtent(true)` answer is ordered the way the library
documents it (`minX ≤ maxX`, `minY ≤ maxY`) and whose spatial reference
needs no reprojection (absent, or already the WGS84 reference). -/
def untransformedOrderedLayer (L : VectorLayer) : Prop :=
  (L.spatialRef = none ∨ L.spatialRef = some true) ∧
  ∀ minX maxX minY maxY tail,
    L.extent = some (minX :: maxX :: minY :: maxY :: tail) →
    minX ≤ maxX ∧ minY ≤ maxY

theorem vectorLayerStep_range {L : VectorLayer} {m : GeoMetadata}
    {ev : List HandleEvent} (hL : untransformedOrderedLayer L)
    (h : vectorLayerStep L = (some m, ev)) : cornersInRange m := by
  obtain ⟨hsrs, hord⟩ := hL
  unfold vectorLayerStep at h
  split at h
  · simp at h
  · rename_i minX maxX minY maxY tail heq
    obtain ⟨ho1, ho2⟩ := hord minX maxX minY maxY tail heq
    split at h
    · rename_i hg
      obtain ⟨h1, h2, h3, h4⟩ := hg
      have hfields :
          m = { topLeftLng := minX, topLeftLat := maxY, topRightLng := maxX,
                topRightLat := maxY, bottomLeftLng := minX,
                bottomLeftLat := minY, bottomRightLng := maxX,
                bottomRightLat := minY, centerLng := (minX + maxX) / 2,
                centerLat := (minY + maxY) / 2 } := by
        rcases hsrs with hs | hs <;> rw [hs] at h <;>
          · injection h with h hev
            injection h with h
            exact h.symm
      subst hfields
      exact ⟨⟨h1, by linarith⟩, ⟨by linarith, h4⟩, ⟨by linarith, h2⟩,
        ⟨by linarith, h4⟩, ⟨h1, by linarith⟩, ⟨h3, by linarith⟩,
        ⟨by linarith, h2⟩, ⟨h3, by linarith⟩⟩
    · simp at h
  · simp at h

theorem vectorLayerLoop_range {layers : List (Option VectorLayer)}
    {m : GeoMetadata}
    (hall : ∀ L, some L ∈ layers → untransformedOrderedLayer L)
    (h : (vectorLayerLoop layers).1 = some m) : cornersInRange m := by
  induction layers with
  | nil => simp [vectorLayerLoop] at h
  | cons hd rest ih =>
    cases hd with
    | none =>
        rw [vectorLayerLoop] at h
        exact ih (fun L hm => hall L (List.mem_cons_of_mem _ hm)) h
    | some L =>
        rw [vectorLayerLoop] at h
        rcases hs : vectorLayerStep L with ⟨r, ev⟩
        rw [hs] at h
        cases r with
        | some m' =>
            simp only at h
            cases h
            exact vectorLayerStep_range (hall L (List.mem_cons_self _ _)) hs
        | none =>
            simp only at h
            exact ih (fun L' hm => hall L' (List.mem_cons_of_mem _ hm)) h

/-- C4 (amended): every extent the byte-pattern scan returns has all four
corner longitudes in [-180,180] and latitudes in [-90,90]; the vector
strategy guarantees the same whenever no layer needs reprojection (each
candidate layer's reference is absent or already WGS84 and its extent is
ordered).  In the reprojection branch only the pre-transform bounds are
validated, so transformed extents are returned unchecked. -/
theorem recovery_extent_range_amended :
    (∀ (fe cr : Bool) (content : List Char) (m : GeoMetadata),
      tryExtractMetadataWithOGR fe cr content = some m → cornersInRange m) ∧
    (∀ (layers : List (Option VectorLayer)) (m : GeoMetadata),
      (∀ L, some L ∈ layers → untransformedOrderedLayer L) →
      (tryExtractMetadataWithOGRVector (some layers)).1 = some m →
      cornersInRange m) := by
  refine ⟨fun _ _ _ _ h => byteScan_range h, fun layers m hall h => ?_⟩
  simp only [tryExtractMetadataWithOGRVector] at h
  exact vectorLayerLoop_range hall h

/-- Witness for the amended C4 theorem: a concrete scan result and a
concrete WGS84-referenced layer extent, both in range. -/
theorem recovery_extent_range_amended_witness :
    cornersInRange (⟨10, 25, 15, 25, 10, 20, 15, 20, 25/2, 45/2⟩ : GeoMetadata) ∧
    cornersInRange (⟨-10, 10, 10, 10, -10, -10, 10, -10, 0, 0⟩ : GeoMetadata) :=
  ⟨recovery_extent_range_amended.1 true true
      "/LLX 10 /LLY 20 /URX 15 /URY 25".toList _
      (by with_unfolding_all decide),
   recovery_extent_range_amended.2
      [some ⟨some true, some [-10, 10, -10, 10], fun p => p⟩] _
      (by
        rintro L hm
        simp only [List.mem_singleton, Option.some.injEq] at hm
        subst hm
        refine ⟨Or.inr rfl, fun minX maxX minY maxY tail he => ?_⟩
        simp only [Option.some.injEq, List.cons.injEq] at he
        obtain ⟨rfl, rfl, rfl, rfl, -⟩ := he
        exact ⟨by norm_num, by norm_num⟩)
      (by with_unfolding_all decide)⟩

/-- The layer of the C4 counterexample: a valid in-range extent, a
non-WGS84 reference, and a coordinate transform that lands outside the
WGS84 ranges. -/
def outOfRangeTransformLayer : VectorLayer :=
  { spatialRef := some false
    extent := some [-10, 10, -10, 10]
    transform := fun _ => (200, 95) }

/-- C4 (counterexample): the vector strategy returns an extent whose
corners lie far outside [-180,180]×[-90,90] — the candidate bounds were
validated before reprojection, but the reprojected coordinates that are
actually returned never are. -/
theorem recovery_extent_range_cex :
    (tryExtractMetadataWithOGRVector (some [some outOfRangeTransformLayer])).1 =
      some ⟨200, 95, 200, 95, 200, 95, 200, 95, 200, 95⟩ ∧
    ¬ cornersInRange ⟨200, 95, 200, 95, 200, 95, 200, 95, 200, 95⟩ := by
  exact ⟨by with_unfolding_all decide, by with_unfolding_all decide⟩

/-! ### Handle release (C6) -/

/-- The only events a layer iteration can emit are spatial-reference and
coordinate-transform acquisitions. -/
def strategyAcquiresOnly (ev : List HandleEvent) : Prop :=
  ∀ e ∈ ev, e = .acquire .spatialRef ∨ e = .acquire .coordTransform

theorem vectorLayerStep_events (L : VectorLayer) :
    strategyAcquiresOnly (vectorLayerStep L).2 := by
  intro e he
  unfold vectorLayerStep at he
  split at he
  · simp at he
  · split at he
    · rcases hs : L.spatialRef with - | b
      · rw [hs] at he
        simp [srsBranch] at he
        exact Or.inl he
      · rcases b <;> rw [hs] at he <;> simp [srsBranch] at he
        · exact he
        · exact Or.inl he
    · simp at he
  · simp at he

theorem vectorLayerLoop_events (layers : List (Option VectorLayer)) :
    strategyAcquiresOnly (vectorLayerLoop layers).2 := by
  induction layers with
  | nil => intro e he; simp [vectorLayerLoop] at he
  | cons hd rest ih =>
    cases hd with
    | none => rw [vectorLayerLoop]; exact ih
    | some L =>
        rw [vectorLayerLoop]
        rcases hs : vectorLayerStep L with ⟨r, ev⟩
        have hev : strategyAcquiresOnly ev := by
          have := vectorLayerStep_events L; rwa [hs] at this
        cases r with
        | some m => simpa using hev
        | none =>
            simp only
            intro e he
            rcases List.mem_append.mp he with h | h
            · exact hev e h
            · exact ih e h

/-- C6 (amended): on every input the vector strategy's data-source handle
is acquired and released in matched pairs on every exit path, but the
`SpatialReference` and `CoordinateTransformation` objects it constructs
are never released before it returns. -/
theorem handle_release_amended (ds : Option (List (Option VectorLayer))) :
    (tryExtractMetadataWithOGRVector ds).2.count (.acquire .dataSource) =
      (tryExtractMetadataWithOGRVector ds).2.count (.release .dataSource) ∧
    (tryExtractMetadataWithOGRVector ds).2.count (.release .spatialRef) = 0 ∧
    (tryExtractMetadataWithOGRVector ds).2.count (.release .coordTransform) = 0 := by
  cases ds with
  | none => simp [tryExtractMetadataWithOGRVector]
  | some layers =>
      have hev := vectorLayerLoop_events layers
      have hnot : ∀ k : HandleKind,
          HandleEvent.acquire HandleKind.dataSource ∉ (vectorLayerLoop layers).2 ∧
          HandleEvent.release k ∉ (vectorLayerLoop layers).2 := by
        intro k
        constructor <;> intro hmem <;> rcases hev _ hmem with h | h <;> simp_all
      simp only [tryExtractMetadataWithOGRVector, List.count_cons,
        List.count_append, List.count_singleton,
        List.count_eq_zero.mpr (hnot HandleKind.dataSource).1,
        List.count_eq_zero.mpr (hnot HandleKind.dataSource).2,
        List.count_eq_zero.mpr (hnot HandleKind.spatialRef).2,
        List.count_eq_zero.mpr (hnot HandleKind.coordTransform).2]
      refine ⟨by simp, by simp, by simp⟩

/-- The layer of the C6 counterexample: already WGS84-referenced with a
valid extent, so the strategy constructs a target `SpatialReference` and
returns without releasing it. -/
def leakedSrsLayer : VectorLayer :=
  { spatialRef := some true
    extent := some [-10, 10, -10, 10]
    transform := fun p => p }

/-- C6 (counterexample): after a successful vector-strategy call the
handle trace holds an acquired spatial-reference handle with no matching
release — a handle remains open when the call returns. -/
theorem handle_release_cex :
    (tryExtractMetadataWithOGRVector (some [some leakedSrsLayer])).2 =
      [.acquire .dataSource, .acquire .spatialRef, .release .dataSource] ∧
    ((tryExtractMetadataWithOGRVector (some [some leakedSrsLayer])).2.count
        (.acquire .spatialRef) ≠
      (tryExtractMetadataWithOGRVector (some [some leakedSrsLayer])).2.count
        (.release .spatialRef)) := by
  exact ⟨by with_unfolding_all decide, by with_unfolding_all decide⟩

/-! ### Recovery-chain order (C1) -/

/-- C1 (amended): the fallback path's recovery chain consists of exactly
two strategies, tried in order: the byte-pattern scan, then — only when
the scan produced nothing — the vector-layer extent; the first strategy
that yields an extent short-circuits and its extent is the one merged.
The geotransform-based extractor (`extractGeospatialMetadata`, the spec's
strategy A) exists in the source but is never invoked by the chain. -/
theorem recovery_chain_order_amended :
    (∀ (fe cr : Bool) (content : List Char)
        (ds : Option (List (Option VectorLayer))) (m : GeoMetadata),
      tryExtractMetadataWithOGR fe cr content = some m →
      recoverMetadata fe cr content ds = some m ∧
      invokedStrategies fe cr content = [.byteScan]) ∧
    (∀ (fe cr : Bool) (content : List Char)
        (ds : Option (List (Option VectorLayer))),
      tryExtractMetadataWithOGR fe cr content = none →
      recoverMetadata fe cr content ds = (tryExtractMetadataWithOGRVector ds).1 ∧
      invokedStrategies fe cr content = [.byteScan, .vectorExtent]) ∧
    (∀ (fe cr : Bool) (content : List Char),
      Strategy.geotransform ∉ invokedStrategies fe cr content) := by
  refine ⟨?_, ?_, ?_⟩
  · intro fe cr content ds m h
    unfold recoverMetadata invokedStrategies
    rw [h]
    exact ⟨rfl, rfl⟩
  · intro fe cr content ds h
    unfold recoverMetadata invokedStrategies
    rw [h]
    exact ⟨rfl, rfl⟩
  · intro fe cr content
    unfold invokedStrategies
    rcases htry : tryExtractMetadataWithOGR fe cr content with - | m <;>
      simp [htry]

/-- Witness for the amended C1 theorem: a scan hit short-circuits the
vector strategy; a scan miss hands over to it. -/
theorem recovery_chain_order_amended_witness :
    (recoverMetadata true true "/LLX 1 /LLY 2 /URX 3 /URY 4".toList none =
        some ⟨1, 4, 3, 4, 1, 2, 3, 2, (1 + 3) / 2, (2 + 4) / 2⟩ ∧
      invokedStrategies true true "/LLX 1 /LLY 2 /URX 3 /URY 4".toList =
        [.byteScan]) ∧
    (recoverMetadata true true [] none =
        (tryExtractMetadataWithOGRVector none).1 ∧
      invokedStrategies true true [] = [.byteScan, .vectorExtent]) :=
  ⟨recovery_chain_order_amended.1 true true _ none _
      (by with_unfolding_all decide),
   recovery_chain_order_amended.2.1 true true [] none (by decide)⟩

/-- The raster reopen oracle of the C1 counterexample: a dataset whose
geotransform-based extraction yields a valid, in-range, non-zero extent. -/
def geotransformOkDataset : RasterDataset :=
  { width := 2
    height := 2
    bandCount := 3
    geoTransform := ⟨1, 1, 0, 5, 0, -1⟩
    projectionRef := some "WGS 84"
    projection := none
    transformOutcome := none
    bands := fun _ => none }

/-- C1 (counterexample): an input on the fallback path where the
geotransform-based extraction (the spec's strategy A) yields a valid
in-range extent, yet the chain invokes the byte-pattern scan — never the
geotransform strategy — and merges the scan's different extent. -/
theorem recovery_chain_skips_geotransform_cex :
    extractGeospatialMetadata (some geotransformOkDataset) =
      ⟨1, 5, 3, 5, 1, 3, 3, 3, 2, 4⟩ ∧
    cornersInRange ⟨1, 5, 3, 5, 1, 3, 3, 3, 2, 4⟩ ∧
    recoverMetadata true true "/LLX 10 /LLY 20 /URX 15 /URY 25".toList none =
      some ⟨10, 25, 15, 25, 10, 20, 15, 20, 25/2, 45/2⟩ ∧
    invokedStrategies true true "/LLX 10 /LLY 20 /URX 15 /URY 25".toList =
      [Strategy.byteScan] ∧
    Strategy.geotransform ∉
      invokedStrategies true true "/LLX 10 /LLY 20 /URX 15 /URY 25".toList ∧
    recoverMetadata true true "/LLX 10 /LLY 20 /URX 15 /URY 25".toList none ≠
      some ⟨1, 5, 3, 5, 1, 3, 3, 3, 2, 4⟩ := by
  refine ⟨by with_unfolding_all decide, by with_unfolding_all decide,
    by with_unfolding_all decide, by with_unfolding_all decide,
    by with_unfolding_all decide, by with_unfolding_all decide⟩

/-! ### Render-selector tagging (C3) -/

/-- Field lookup inside the `result` object of an envelope. -/
def resultField (k : String) (m : ResponseMap) : Option JVal :=
  match lookupKey "result" m with
  | some (.obj r) => lookupKey k r
  | _ => none

theorem decodePixels_error_shape {d : RasterDataset} {e : ResponseMap}
    (h : decodePixels d = .error e) : ∃ s, e = renderError s := by
  unfold decodePixels at h
  split at h
  · split at h
    · simp at h
    · injection h with h
      exact ⟨_, h.symm⟩
  · split at h
    · split at h
      · simp at h
      · injection h with h
        exact ⟨_, h.symm⟩
    · injection h with h
      exact ⟨_, h.symm⟩

theorem primaryRender_untagged (w : RenderWorld) (d : RasterDataset) :
    resultField "renderedWith" (primaryRender w d).1 = none := by
  unfold primaryRender
  rcases hdp : decodePixels d with e | pix
  · obtain ⟨s, rfl⟩ := decodePixels_error_shape hdp
    rfl
  · rcases hpe : w.pngWriteException with - | m'
    · rcases hok : w.pngWriteOk <;> rfl
    · rfl

theorem fallback_envelope_fields (w : RenderWorld) (md : Option GeoMetadata)
    (r : ResponseMap) (png : PngOut)
    (h : renderPDFWithAndroidPdfRenderer w md = some (r, png)) :
    lookupKey "code" r = some (.str "SUCCESS") ∧
    resultField "renderedWith" r = some (.str "AndroidPdfRenderer") ∧
    resultField "metadataExtracted" r = some (.bool md.isSome) ∧
    resultField "topLeft" r =
      some (pointObj (md.getD zeroMetadata).topLeftLng
        (md.getD zeroMetadata).topLeftLat) ∧
    resultField "topRight" r =
      some (pointObj (md.getD zeroMetadata).topRightLng
        (md.getD zeroMetadata).topRightLat) ∧
    resultField "bottomLeft" r =
      some (pointObj (md.getD zeroMetadata).bottomLeftLng
        (md.getD zeroMetadata).bottomLeftLat) ∧
    resultField "bottomRight" r =
      some (pointObj (md.getD zeroMetadata).bottomRightLng
        (md.getD zeroMetadata).bottomRightLat) ∧
    resultField "center" r =
      some (pointObj (md.getD zeroMetadata).centerLng
        (md.getD zeroMetadata).centerLat) := by
  unfold renderPDFWithAndroidPdfRenderer at h
  split at h
  · simp at h
  · split at h
    · simp at h
    · split at h
      · simp at h
      · split at h
        · simp at h
        · injection h with h
          injection h with h1 h2
          subst h1
          exact ⟨rfl, rfl, rfl, rfl, rfl, rfl, rfl, rfl⟩

/-- C3 (amended): on raster-open success the result envelope carries no
renderer tag (no `renderedWith` field at all); on the UnsupportedScheme
fallback path with a successful page rasterization, the envelope is tagged
`renderedWith = "AndroidPdfRenderer"`, and it carries
`metadataExtracted = false` with four zero-valued corners when no recovery
strategy produced an extent, `metadataExtracted = true` with the recovered
extent when one did. -/
theorem render_selector_tagging_amended :
    (∀ (w : RenderWorld) (d : RasterDataset),
      w.env = none → w.fileExists = true → w.fileLength ≠ 0 →
      w.canRead = true → w.dataset = some d →
      resultField "renderedWith" (renderGeoPDFToPng w).1 = none) ∧
    (∀ (w : RenderWorld) (doc : PdfDoc),
      w.env = none → w.fileExists = true → w.fileLength ≠ 0 →
      w.canRead = true → w.dataset = none →
      isGeodetic w.gdalErrorMsg = true →
      w.pdfDoc = some doc → doc.pageCount ≠ 0 → w.fallbackPngOk = true →
      lookupKey "code" (renderGeoPDFToPng w).1 = some (.str "SUCCESS") ∧
      resultField "renderedWith" (renderGeoPDFToPng w).1 =
        some (.str "AndroidPdfRenderer") ∧
      resultField "metadataExtracted" (renderGeoPDFToPng w).1 =
        some (.bool (recoverMetadata w.fileExists w.canRead w.fileContent
          w.vectorSource).isSome) ∧
      resultField "topLeft" (renderGeoPDFToPng w).1 =
        some (pointObj
          ((recoverMetadata w.fileExists w.canRead w.fileContent
            w.vectorSource).getD zeroMetadata).topLeftLng
          ((recoverMetadata w.fileExists w.canRead w.fileContent
            w.vectorSource).getD zeroMetadata).topLeftLat) ∧
      resultField "center" (renderGeoPDFToPng w).1 =
        some (pointObj
          ((recoverMetadata w.fileExists w.canRead w.fileContent
            w.vectorSource).getD zeroMetadata).centerLng
          ((recoverMetadata w.fileExists w.canRead w.fileContent
            w.vectorSource).getD zeroMetadata).centerLat)) := by
  constructor
  · intro w d henv hfe hlen hcr hds
    have hred : (renderGeoPDFToPng w).1 = (primaryRender w d).1 := by
      simp [renderGeoPDFToPng, henv, hfe, hlen, hcr, hds]
    rw [hred]
    exact primaryRender_untagged w d
  · intro w doc henv hfe hlen hcr hds hgeo hdoc hpc hok
    rw [hfe, hcr]
    rcases hfbr : renderPDFWithAndroidPdfRenderer w
        (recoverMetadata true true w.fileContent w.vectorSource)
      with - | ⟨r, png⟩
    · simp [renderPDFWithAndroidPdfRenderer, hfe, hcr, hdoc, hpc, hok] at hfbr
    have hred : (renderGeoPDFToPng w).1 = r := by
      simp [renderGeoPDFToPng, henv, hfe, hlen, hcr, hds, hgeo, hfbr]
    obtain ⟨hc, hrw, hme, htl, -, -, -, hcen⟩ :=
      fallback_envelope_fields w _ r png hfbr
    rw [hred]
    exact ⟨hc, hrw, hme, htl, hcen⟩

/-- A 3-band dataset with which the primary path succeeds. -/
def primaryDataset : RasterDataset :=
  { width := 1
    height := 1
    bandCount := 3
    geoTransform := ⟨0, 1, 0, 0, 0, 1⟩
    projectionRef := none
    projection := none
    transformOutcome := none
    bands := fun _ => some fun _ => 0 }

/-- A world on which the primary raster path runs to a SUCCESS envelope. -/
def primaryWorld : RenderWorld :=
  { inputPath := "in.pdf"
    outputPath := "out.png"
    env := none
    fileExists := true
    fileLength := 10
    canRead := true
    canWrite := true
    isFile := true
    isDirectory := false
    absolutePath := "/data/in.pdf"
    dataset := some primaryDataset
    gdalErrorMsg := none
    gdalErrorType := 0
    pngWriteException := none
    pngWriteOk := true
    fileContent := []
    vectorSource := none
    pdfDoc := none
    pageBitmap := fun _ => 0
    fallbackPngOk := false }

/-- A world on which the raster open fails with the geodetic diagnostic,
no recovery strategy finds an extent, and the PdfRenderer fallback
succeeds. -/
def fallbackWorld : RenderWorld :=
  { inputPath := "in.pdf"
    outputPath := "out.png"
    env := none
    fileExists := true
    fileLength := 10
    canRead := true
    canWrite := true
    isFile := true
    isDirectory := false
    absolutePath := "/data/in.pdf"
    dataset := none
    gdalErrorMsg := some "Unhandled (yet) value for ProjectionType : GEODETIC"
    gdalErrorType := 1
    pngWriteException := none
    pngWriteOk := false
    fileContent := []
    vectorSource := none
    pdfDoc := some ⟨1, 100, 200⟩
    pageBitmap := fun _ => 0
    fallbackPngOk := true }

/-- Witness for the amended C3 theorem at the two concrete worlds. -/
theorem render_selector_tagging_amended_witness :
    resultField "renderedWith" (renderGeoPDFToPng primaryWorld).1 = none ∧
    (lookupKey "code" (renderGeoPDFToPng fallbackWorld).1 =
        some (.str "SUCCESS") ∧
      resultField "renderedWith" (renderGeoPDFToPng fallbackWorld).1 =
        some (.str "AndroidPdfRenderer") ∧
      resultField "metadataExtracted" (renderGeoPDFToPng fallbackWorld).1 =
        some (.bool false) ∧
      resultField "topLeft" (renderGeoPDFToPng fallbackWorld).1 =
        some (pointObj 0 0) ∧
      resultField "center" (renderGeoPDFToPng fallbackWorld).1 =
        some (pointObj 0 0)) :=
  ⟨render_selector_tagging_amended.1 primaryWorld primaryDataset rfl rfl
      (by decide) rfl rfl,
   render_selector_tagging_amended.2 fallbackWorld ⟨1, 100, 200⟩ rfl rfl
      (by decide) rfl rfl (by decide) rfl (by decide) rfl⟩

/-- C3 (counterexample): a concrete raster-open success whose envelope
carries no renderer tag at all — neither at the top level nor inside the
result object — refuting "on raster-open success the result is tagged
primary". -/
theorem render_selector_primary_untagged_cex :
    lookupKey "code" (renderGeoPDFToPng primaryWorld).1 =
      some (.str "SUCCESS") ∧
    lookupKey "renderedWith" (renderGeoPDFToPng primaryWorld).1 = none ∧
    resultField "renderedWith" (renderGeoPDFToPng primaryWorld).1 = none := by
  refine ⟨?_, ?_, ?_⟩ <;> with_unfolding_all rfl

/-! ### Uniform response envelope (C5) -/

theorem primaryRender_envelopeOk (w : RenderWorld) (d : RasterDataset) :
    envelopeOk (primaryRender w d).1 = true := by
  unfold primaryRender
  rcases hdp : decodePixels d with e | pix
  · obtain ⟨s, rfl⟩ := decodePixels_error_shape hdp
    rfl
  · rcases hpe : w.pngWriteException with - | m'
    · rcases hok : w.pngWriteOk <;> rfl
    · rfl

theorem fallback_envelopeOk {w : RenderWorld} {md : Option GeoMetadata}
    {r : ResponseMap} {png : PngOut}
    (h : renderPDFWithAndroidPdfRenderer w md = some (r, png)) :
    envelopeOk r = true := by
  unfold renderPDFWithAndroidPdfRenderer at h
  split at h
  · simp at h
  · split at h
    · simp at h
    · split at h
      · simp at h
      · split at h
        · simp at h
        · injection h with h
          injection h with h1 h2
          subst h1
          rfl

/-- C5 (amended): every public operation resolves, on every input
including every error path, with the uniform four-field envelope —
keys `msg` (string), `code` (from the closed error-code set), `error`
(boolean) and `result` (object) — and no path escapes without one.  -/
theorem response_envelope_uniform :
    (∀ w : VersionWorld, envelopeOk (getVersionInfo w) = true) ∧
    (∀ w : DriversWorld, envelopeOk (listDrivers w) = true) ∧
    (∀ w : ReadWorld, envelopeOk (readGeoPDF w) = true) ∧
    (∀ w : RenderWorld, envelopeOk (renderGeoPDFToPng w).1 = true) := by
  refine ⟨fun w => ?_, fun w => ?_, fun w => ?_, fun w => ?_⟩
  · unfold getVersionInfo
    rcases w.env with - | f
    · rfl
    · rcases f with m | m | ⟨m, ty⟩ <;> rfl
  · unfold listDrivers
    rcases w.env with - | f
    · rfl
    · rcases f with m | m | ⟨m, ty⟩ <;> rfl
  · unfold readGeoPDF
    rcases w.env with - | f
    · rcases w.dataset with - | d <;> rfl
    · rcases f with m | m | ⟨m, ty⟩ <;> rfl
  · unfold renderGeoPDFToPng
    split
    · rfl
    · rfl
    · rfl
    · split
      · rfl
      · split
        · rfl
        · split
          · rfl
          · split
            · exact primaryRender_envelopeOk w _
            · dsimp only
              split
              · rcases hcall : renderPDFWithAndroidPdfRenderer w
                    (recoverMetadata w.fileExists w.canRead w.fileContent
                      w.vectorSource) with - | ⟨r, png⟩
                · rfl
                · exact fallback_envelopeOk hcall
              · rfl

/-- The trivial successful version-query world of the C5 counterexample. -/
def plainVersionWorld : VersionWorld :=
  { env := none
    version := some "GDAL 3.4.1"
    versionNum := some "30401"
    releaseDate := some "20220302" }

/-- C5 (counterexample): the envelope's actual field names are `msg` and
`error`; a successful response carries no `message` and no `isError`
field, refuting the claimed `{message, code, isError, result}` shape. -/
theorem response_envelope_keys_cex :
    lookupKey "message" (getVersionInfo plainVersionWorld) = none ∧
    lookupKey "isError" (getVersionInfo plainVersionWorld) = none ∧
    lookupKey "msg" (getVersionInfo plainVersionWorld) =
      some (.str "Version info retrieved successfully") ∧
    lookupKey "error" (getVersionInfo plainVersionWorld) =
      some (.bool false) :=
  ⟨rfl, rfl, rfl, rfl⟩

/-! ### Primary-path corner computation (C8) -/

/-- The WGS84 geographic WKT literal the source builds its target
reference from. -/
def wgs84Wkt : String :=
  "GEOGCS[\"WGS 84\",DATUM[\"WGS_1984\",SPHEROID[\"WGS 84\",6378137,298.257223563]],PRIMEM[\"Greenwich\",0],UNIT[\"degree\",0.0174532925199433]]"

set_option maxRecDepth 8000 in
/-- C8: for a 100×100 raster with geotransform
[-10, 0.1, 0, 20, 0, -0.1] and WGS84 projection text, the primary path
computes corner_x = originX + col·pixelWidth and
corner_y = originY + row·pixelHeight, and (the WGS84→WGS84 reprojection
acting as the identity on the corner points) returns topLeft(-10,20),
topRight(0,20), bottomLeft(-10,10), bottomRight(0,10), center(-5,15). -/
theorem primary_corner_computation (w : RenderWorld) (d : RasterDataset)
    (f : ℚ × ℚ → ℚ × ℚ)
    (henv : w.env = none) (hfe : w.fileExists = true)
    (hlen : w.fileLength ≠ 0) (hcr : w.canRead = true)
    (hds : w.dataset = some d)
    (hw : d.width = 100) (hh : d.height = 100)
    (hgt : d.geoTransform = ⟨-10, 1/10, 0, 20, 0, -1/10⟩)
    (hproj : d.projectionRef = some wgs84Wkt)
    (htr : d.transformOutcome = some f) (hid : ∀ p, f p = p)
    (hok : ∃ pix, decodePixels d = .ok pix)
    (hpe : w.pngWriteException = none) (hpw : w.pngWriteOk = true) :
    primaryCoords d = ⟨-10, 20, 0, 20, -10, 10, 0, 10, -5, 15⟩ ∧
    lookupKey "code" (renderGeoPDFToPng w).1 = some (.str "SUCCESS") ∧
    resultField "topLeft" (renderGeoPDFToPng w).1 =
      some (pointObj (-10) 20) ∧
    resultField "topRight" (renderGeoPDFToPng w).1 =
      some (pointObj 0 20) ∧
    resultField "bottomLeft" (renderGeoPDFToPng w).1 =
      some (pointObj (-10) 10) ∧
    resultField "bottomRight" (renderGeoPDFToPng w).1 =
      some (pointObj 0 10) ∧
    resultField "center" (renderGeoPDFToPng w).1 =
      some (pointObj (-5) 15) := by
  have hne : wgs84Wkt.isEmpty = false := rfl
  have hcoords : primaryCoords d = ⟨-10, 20, 0, 20, -10, 10, 0, 10, -5, 15⟩ := by
    unfold primaryCoords
    rw [hgt, hw, hh, hproj, htr]
    simp only [hne, hid, Bool.false_eq_true, if_false, Bool.not_false]
    norm_num [GeoMetadata.mk.injEq]
  obtain ⟨pix, hdp⟩ := hok
  have hmain : (renderGeoPDFToPng w).1 =
      createResponseMap "GeoPDF rendered to PNG successfully" "SUCCESS" false
        (some
          [("inputPath", .str w.inputPath), ("outputPath", .str w.outputPath),
           ("width", .str (toString (d.width : ℤ))),
           ("height", .str (toString (d.height : ℤ))),
           ("geoTransform", .arr (d.geoTransform.toList.map .num)),
           ("topLeft", pointObj (-10) 20), ("topRight", pointObj 0 20),
           ("bottomLeft", pointObj (-10) 10), ("bottomRight", pointObj 0 10),
           ("center", pointObj (-5) 15)]) := by
    simp [renderGeoPDFToPng, henv, hfe, hlen, hcr, hds, primaryRender, hdp,
      hpe, hpw, hcoords]
  refine ⟨hcoords, ?_, ?_, ?_, ?_, ?_, ?_⟩ <;> rw [hmain] <;> rfl

/-- The dataset of the C8 witness. -/
def cornerDataset : RasterDataset :=
  { width := 100
    height := 100
    bandCount := 3
    geoTransform := ⟨-10, 1/10, 0, 20, 0, -1/10⟩
    projectionRef := some wgs84Wkt
    projection := none
    transformOutcome := some fun p => p
    bands := fun _ => some fun _ => 0 }

/-- The world of the C8 witness. -/
def cornerWorld : RenderWorld :=
  { inputPath := "in.pdf"
    outputPath := "out.png"
    env := none
    fileExists := true
    fileLength := 10
    canRead := true
    canWrite := true
    isFile := true
    isDirectory := false
    absolutePath := "/data/in.pdf"
    dataset := some cornerDataset
    gdalErrorMsg := none
    gdalErrorType := 0
    pngWriteException := none
    pngWriteOk := true
    fileContent := []
    vectorSource := none
    pdfDoc := none
    pageBitmap := fun _ => 0
    fallbackPngOk := false }

/-- Witness for the C8 theorem at the concrete 100×100 world. -/
theorem primary_corner_computation_witness :
    primaryCoords cornerDataset = ⟨-10, 20, 0, 20, -10, 10, 0, 10, -5, 15⟩ ∧
    resultField "topLeft" (renderGeoPDFToPng cornerWorld).1 =
      some (pointObj (-10) 20) ∧
    resultField "center" (renderGeoPDFToPng cornerWorld).1 =
      some (pointObj (-5) 15) := by
  obtain ⟨h1, h2, h3, h4, h5, h6, h7⟩ :=
    primary_corner_computation cornerWorld cornerDataset (fun p => p) rfl rfl
      (by decide) rfl rfl rfl rfl rfl rfl rfl (fun p => rfl) ⟨_, rfl⟩ rfl rfl
  exact ⟨h1, h3, h7⟩

/-! ### Band-layout dispatch (C9) -/

/-- C9: on the primary path, band count ≥ 3 decodes RGB (band 4 as alpha
when present, opaque otherwise), band count 1 replicates the grayscale
band into all three channels, and any other band count (0 or 2) fails with
the unsupported-band-count error — code `RENDER_ERROR`, detail
`Unsupported band count: N` — producing no image. -/
theorem band_layout_dispatch (w : RenderWorld) (d : RasterDataset)
    (henv : w.env = none) (hfe : w.fileExists = true)
    (hlen : w.fileLength ≠ 0) (hcr : w.canRead = true)
    (hds : w.dataset = some d) :
    (∀ red green blue, d.bandCount ≥ 3 →
      d.bands 1 = some red → d.bands 2 = some green → d.bands 3 = some blue →
      w.pngWriteException = none → w.pngWriteOk = true →
      ∃ png, (renderGeoPDFToPng w).2 = some png ∧
        png.width = d.width ∧ png.height = d.height ∧
        ∀ idx, png.pixels idx =
          ((match (if d.bandCount ≥ 4 then d.bands 4 else none) with
            | some al => al idx % 256
            | none => 255) <<< 24) |||
          ((red idx % 256) <<< 16) ||| ((green idx % 256) <<< 8) |||
          blue idx % 256) ∧
    (∀ gray, d.bandCount = 1 →
      d.bands 1 = some gray →
      w.pngWriteException = none → w.pngWriteOk = true →
      ∃ png, (renderGeoPDFToPng w).2 = some png ∧
        png.width = d.width ∧ png.height = d.height ∧
        ∀ idx, png.pixels idx =
          (255 <<< 24) ||| ((gray idx % 256) <<< 16) ||| ((gray idx % 256) <<< 8) |||
            gray idx % 256) ∧
    (d.bandCount ≠ 1 → d.bandCount < 3 →
      (renderGeoPDFToPng w).1 =
        renderError ("Unsupported band count: " ++ toString (d.bandCount : ℤ)) ∧
      (renderGeoPDFToPng w).2 = none) := by
  have hrender : renderGeoPDFToPng w = primaryRender w d := by
    simp [renderGeoPDFToPng, henv, hfe, hlen, hcr, hds]
  refine ⟨?_, ?_, ?_⟩
  · intro red green blue h3 hb1 hb2 hb3 hpe hpw
    have hdp : decodePixels d =
        .ok (fun idx =>
          ((match (if d.bandCount ≥ 4 then d.bands 4 else none) with
            | some al => al idx % 256
            | none => 255) <<< 24) |||
          ((red idx % 256) <<< 16) ||| ((green idx % 256) <<< 8) |||
          blue idx % 256) := by
      simp [decodePixels, h3, hb1, hb2, hb3]
    refine ⟨⟨d.width, d.height, fun idx =>
      ((match (if d.bandCount ≥ 4 then d.bands 4 else none) with
        | some al => al idx % 256
        | none => 255) <<< 24) |||
      ((red idx % 256) <<< 16) ||| ((green idx % 256) <<< 8) |||
      blue idx % 256⟩, ?_, rfl, rfl, fun idx => rfl⟩
    rw [hrender]
    simp [primaryRender, hdp, hpe, hpw]
  · intro gray h1 hb1 hpe hpw
    have hn3 : ¬d.bandCount ≥ 3 := by omega
    have hdp : decodePixels d =
        .ok (fun idx =>
          (255 <<< 24) ||| ((gray idx % 256) <<< 16) ||| ((gray idx % 256) <<< 8) |||
            gray idx % 256) := by
      simp [decodePixels, hn3, h1, hb1]
    refine ⟨⟨d.width, d.height, fun idx =>
      (255 <<< 24) ||| ((gray idx % 256) <<< 16) ||| ((gray idx % 256) <<< 8) |||
        gray idx % 256⟩, ?_, rfl, rfl, fun idx => rfl⟩
    rw [hrender]
    simp [primaryRender, hdp, hpe, hpw]
  · intro hne1 hlt
    have hn3 : ¬d.bandCount ≥ 3 := by omega
    have hdp : decodePixels d =
        .error (renderError
          ("Unsupported band count: " ++ toString (d.bandCount : ℤ))) := by
      simp [decodePixels, hn3, hne1]
    rw [hrender]
    constructor <;> simp [primaryRender, hdp]

/-- The single-band dataset of the C9 witness. -/
def grayDataset : RasterDataset :=
  { width := 2
    height := 2
    bandCount := 1
    geoTransform := ⟨0, 1, 0, 0, 0, 1⟩
    projectionRef := none
    projection := none
    transformOutcome := none
    bands := fun i => if i = 1 then some fun _ => 7 else none }

/-- The single-band world of the C9 witness. -/
def grayWorld : RenderWorld :=
  { cornerWorld with dataset := some grayDataset }

/-- The two-band dataset of the C9 witness. -/
def twoBandDataset : RasterDataset :=
  { width := 2
    height := 2
    bandCount := 2
    geoTransform := ⟨0, 1, 0, 0, 0, 1⟩
    projectionRef := none
    projection := none
    transformOutcome := none
    bands := fun _ => some fun _ => 0 }

/-- The two-band world of the C9 witness. -/
def twoBandWorld : RenderWorld :=
  { cornerWorld with dataset := some twoBandDataset }

set_option maxRecDepth 8000 in
/-- Witness for the C9 theorem at three concrete worlds: 3 bands decode
to RGB, 1 band replicates, 2 bands fail with the unsupported-band-count
error and no image. -/
theorem band_layout_dispatch_witness :
    (∃ png, (renderGeoPDFToPng primaryWorld).2 = some png ∧
      png.width = 1 ∧ png.height = 1 ∧
      ∀ idx, png.pixels idx = 4278190080) ∧
    (∃ png, (renderGeoPDFToPng grayWorld).2 = some png ∧
      png.width = 2 ∧ png.height = 2 ∧
      ∀ idx, png.pixels idx = 4278650631) ∧
    ((renderGeoPDFToPng twoBandWorld).1 =
      renderError "Unsupported band count: 2" ∧
     (renderGeoPDFToPng twoBandWorld).2 = none) := by
  refine ⟨?_, ?_, ?_⟩
  · obtain ⟨png, hp, hw', hh', hpix⟩ :=
      (band_layout_dispatch primaryWorld primaryDataset rfl rfl (by decide)
          rfl rfl).1
        (fun _ => 0) (fun _ => 0) (fun _ => 0) (by decide) rfl rfl rfl rfl rfl
    refine ⟨png, hp, hw', hh', fun idx => (hpix idx).trans ?_⟩
    have h255 : (match (if primaryDataset.bandCount ≥ 4 then
        primaryDataset.bands 4 else none) with
      | some al => al idx % 256
      | none => 255) = 255 := rfl
    rw [h255]
    decide
  · obtain ⟨png, hp, hw', hh', hpix⟩ :=
      (band_layout_dispatch grayWorld grayDataset rfl rfl (by decide)
          rfl rfl).2.1
        (fun _ => 7) rfl rfl rfl rfl
    exact ⟨png, hp, hw', hh', fun idx => (hpix idx).trans (by decide)⟩
  · exact (band_layout_dispatch twoBandWorld twoBandDataset rfl rfl
      (by decide) rfl rfl).2.2 (by decide) (by decide)

end GdalPdfium
